import Mathlib

/-!
Shallow embedding of the resilience core of the repository:
the advanced retry handler with circuit breakers
(src/src/utils/retry_handler.py) and the fallback strategy manager
(src/src/utils/fallback_strategies.py).

Modelling conventions:
- Python floats (delays, confidences, timestamps) are embedded as
  rational numbers.
- Python datetimes are embedded as rational time points; comparison and
  addition of a timedelta of q seconds become rational comparison and
  addition.
- Python exceptions are embedded as the inductive type PyExc, separating
  the classes RetryableError and NonRetryableError from all other
  exception types, which carry their type name and message.
- Effectful calls (the primary operation, sqlite reads and writes) are
  embedded by passing their outcome explicitly: a value, or the
  exception the call raised.
- The sha256 prompt fingerprint is embedded as the identity function on
  strings, an injective fingerprint, which is the property the lookup
  relies on.
-/

/-- Embedding of a Python exception value. The retry handler
distinguishes the classes RetryableError (with an optional retry_after
hint) and NonRetryableError; every other exception is represented by its
type name and its message (the result of str(e)). -/
inductive PyExc where
  | retryableError (msg : String) (retryAfter : Option ℚ)
  | nonRetryableError (msg : String)
  | otherExc (typeName : String) (msg : String)
deriving DecidableEq

/-- Embedding of Python str(exception): the message text. -/
def PyExc.str : PyExc → String
  | .retryableError m _ => m
  | .nonRetryableError m => m
  | .otherExc _ m => m

/-- Embedding of type(exception).__name__. -/
def PyExc.pyTypeName : PyExc → String
  | .retryableError _ _ => "RetryableError"
  | .nonRetryableError _ => "NonRetryableError"
  | .otherExc t _ => t

/-- Embedding of the Python truthiness test on exception.retry_after in
the calculate-delay routine: the hint is used only when it is not None
and not zero. -/
def PyExc.retryAfterHint : PyExc → Option ℚ
  | .retryableError _ (some ra) => if ra = 0 then none else some ra
  | _ => none

/-- Character list of a string lower-cased, embedding of s.lower() for
the ASCII strings the handler matches against. -/
def pyLower (s : String) : List Char := s.toList.map Char.toLower

/-- Decides whether the pattern occurs as a prefix of the character
list, auxiliary for the embedding of the Python substring test. -/
def listStartsWith : List Char → List Char → Bool
  | _, [] => true
  | [], _ :: _ => false
  | h :: t, p :: ps => h = p && listStartsWith t ps

/-- Embedding of the Python substring test, pat in hay, on character
lists. -/
def hasSub (hay pat : List Char) : Bool :=
  match hay with
  | [] => pat.isEmpty
  | _ :: t => listStartsWith hay pat || hasSub t pat

/-- Retry strategies of the handler, RetryStrategy in
retry_handler.py. -/
inductive RetryStrategy where
  | exponential_backoff
  | linear_backoff
  | fixed_delay
  | immediate
deriving DecidableEq

/-- Circuit breaker states, CircuitState in retry_handler.py. The OPEN
state is called opened here because open is a reserved word in Lean. -/
inductive CircuitState where
  | closed
  | opened
  | half_open
deriving DecidableEq

/-- Embedding of the RetryConfig dataclass with its defaults. -/
structure RetryConfig where
  max_attempts : Nat := 3
  base_delay : ℚ := 1
  max_delay : ℚ := 60
  backoff_multiplier : ℚ := 2
  jitter : Bool := true
  strategy : RetryStrategy := .exponential_backoff
  retry_on_timeout : Bool := true
  retry_on_connection_error : Bool := true
  retry_on_parse_error : Bool := true
  retry_on_empty_response : Bool := true
  enable_circuit_breaker : Bool := true
  failure_threshold : Nat := 5
  recovery_timeout : ℚ := 30
  success_threshold : Nat := 2
deriving DecidableEq

/-- Embedding of the CircuitBreakerState dataclass with its defaults. -/
structure CircuitBreakerState where
  state : CircuitState := .closed
  failure_count : Nat := 0
  success_count : Nat := 0
  last_failure_time : Option ℚ := none
  next_attempt_time : Option ℚ := none
deriving DecidableEq

/-- The freshly constructed breaker state, CircuitBreakerState() in
Python, as created lazily for a not yet seen operation id. -/
def initialBreaker : CircuitBreakerState := {}

/-- Embedding of AdvancedRetryHandler._can_execute for one operation id:
returns whether the call may proceed together with the possibly updated
breaker state (open moves to half_open with success_count reset once now
has reached next_attempt_time). -/
def canExecute (breaker : CircuitBreakerState) (now : ℚ) : Bool × CircuitBreakerState :=
  match breaker.state with
  | .closed => (true, breaker)
  | .opened =>
    match breaker.next_attempt_time with
    | some t =>
      if now ≥ t then
        (true, { breaker with state := .half_open, success_count := 0 })
      else (false, breaker)
    | none => (false, breaker)
  | .half_open => (true, breaker)

/-- Embedding of AdvancedRetryHandler._should_retry. The attempt
argument is present in the Python signature but unused by its body. -/
def shouldRetry (exception : PyExc) (attempt : Nat) (config : RetryConfig) : Bool :=
  match exception with
  | .nonRetryableError _ => false
  | .retryableError _ _ => true
  | .otherExc ty msg =>
    let errorName := pyLower ty
    let msgLower := pyLower msg
    if hasSub errorName "timeout".toList && config.retry_on_timeout then true
    else if (hasSub errorName "connection".toList || hasSub errorName "network".toList)
        && config.retry_on_connection_error then true
    else if (hasSub msgLower "parse".toList || hasSub msgLower "json".toList
          || hasSub msgLower "format".toList)
        && config.retry_on_parse_error then true
    else if hasSub msgLower "empty".toList && config.retry_on_empty_response then true
    else if ty = "ValueError" || ty = "TypeError" || ty = "AttributeError" then false
    else true

/-- Embedding of AdvancedRetryHandler._calculate_delay. The random
sample r stands for the value of random.random(), consulted only when
jitter is enabled. -/
def calculateDelay (attempt : Nat) (config : RetryConfig) (exception : PyExc) (r : ℚ) : ℚ :=
  match exception.retryAfterHint with
  | some ra => ra
  | none =>
    if config.strategy = .immediate then 0
    else
      let delay :=
        if config.strategy = .fixed_delay then config.base_delay
        else if config.strategy = .linear_backoff then config.base_delay * attempt
        else if config.strategy = .exponential_backoff then
          config.base_delay * config.backoff_multiplier ^ (attempt - 1)
        else config.base_delay
      let delay := min delay config.max_delay
      if config.jitter then
        let jitter := delay * (1 / 10) * (r * 2 - 1)
        max 0 (delay + jitter)
      else delay

/-- Embedding of the circuit-breaker update in
AdvancedRetryHandler._record_success (the append-only history entry is
not modelled). -/
def recordSuccess (config : RetryConfig) (breaker : CircuitBreakerState) : CircuitBreakerState :=
  match breaker.state with
  | .half_open =>
    let sc := breaker.success_count + 1
    if config.success_threshold ≤ sc then
      { breaker with success_count := sc, state := .closed, failure_count := 0 }
    else { breaker with success_count := sc }
  | .closed => { breaker with failure_count := 0 }
  | .opened => breaker

/-- Embedding of the circuit-breaker update in
AdvancedRetryHandler._record_failure (the append-only history entry is
not modelled). -/
def recordFailure (config : RetryConfig) (breaker : CircuitBreakerState) (now : ℚ) :
    CircuitBreakerState :=
  let b := { breaker with
    failure_count := breaker.failure_count + 1
    last_failure_time := some now }
  if (b.state = .closed ∨ b.state = .half_open) ∧ config.failure_threshold ≤ b.failure_count then
    { b with state := .opened, next_attempt_time := some (now + config.recovery_timeout) }
  else b

/-- One mutation of a circuit breaker by the retry handler: the gate
check of _can_execute, a success recording, or a failure recording. -/
inductive BreakerStep (config : RetryConfig) : CircuitBreakerState → CircuitBreakerState → Prop where
  | gate (b : CircuitBreakerState) (now : ℚ) : BreakerStep config b (canExecute b now).2
  | success (b : CircuitBreakerState) : BreakerStep config b (recordSuccess config b)
  | failure (b : CircuitBreakerState) (now : ℚ) : BreakerStep config b (recordFailure config b now)

/-- A breaker state reachable from the freshly created state through the
handler operations. -/
def BreakerReachable (config : RetryConfig) (b : CircuitBreakerState) : Prop :=
  Relation.ReflTransGen (BreakerStep config) initialBreaker b

/-- Embedding of the attempt loop of
AdvancedRetryHandler.execute_with_retry. The operation argument gives
the outcome of each 1-indexed attempt; the fuel is the number of
attempts still allowed. Returns the final outcome, the breaker state,
and how many times the operation was invoked. Raising the last
exception with none recorded, which in Python can only happen when
max_attempts is not positive, is rendered as a TypeError. -/
def retryLoop {α : Type} (config : RetryConfig) (operation : Nat → Except PyExc α) (now : ℚ) :
    Nat → Nat → CircuitBreakerState → Option PyExc →
    Except PyExc α × CircuitBreakerState × Nat
  | 0, attempt, breaker, lastExc =>
    (.error (lastExc.getD (.otherExc "TypeError" "exceptions must derive from BaseException")),
      breaker, attempt)
  | fuel + 1, attempt, breaker, _ =>
    let attempt := attempt + 1
    match operation attempt with
    | .ok v =>
      let breaker := if config.enable_circuit_breaker then recordSuccess config breaker else breaker
      (.ok v, breaker, attempt)
    | .error e =>
      let willRetry := shouldRetry e attempt config
      let breaker :=
        if config.enable_circuit_breaker then recordFailure config breaker now else breaker
      if !willRetry || fuel = 0 then (.error e, breaker, attempt)
      else retryLoop config operation now fuel attempt breaker (some e)

/-- Embedding of AdvancedRetryHandler.execute_with_retry for one
operation id: the circuit gate followed by the attempt loop. The breaker
state for the id is passed and returned explicitly; the third component
counts invocations of the underlying operation. -/
def executeWithRetry {α : Type} (config : RetryConfig) (operation : Nat → Except PyExc α)
    (operation_id : String) (breaker : CircuitBreakerState) (now : ℚ) :
    Except PyExc α × CircuitBreakerState × Nat :=
  if config.enable_circuit_breaker then
    match canExecute breaker now with
    | (false, b) =>
      (.error (.nonRetryableError ("Circuit breaker OPEN for " ++ operation_id)), b, 0)
    | (true, b) => retryLoop config operation now config.max_attempts 0 b none
  else retryLoop config operation now config.max_attempts 0 breaker none

/-- Embedding of the CachedResponse dataclass of
fallback_strategies.py, one row of the cached_responses table. -/
structure CachedResponse where
  prompt_hash : String
  original_prompt : String
  response : String
  model_type : String
  timestamp : ℚ
  success_count : Nat := 0
  failure_count : Nat := 0
  confidence_score : ℚ := 1
  tags : List String := []
deriving DecidableEq

/-- Embedding of the sha256-based ResponseCache._hash_prompt: an
injective fingerprint of the prompt, modelled as the prompt itself. -/
def hashPrompt (prompt : String) : String := prompt

/-- Embedding of ResponseCache._get_exact_match on the list of cached
rows: the row whose prompt_hash equals the fingerprint of the prompt
(the table is keyed uniquely by prompt_hash). -/
def getExactMatch (entries : List CachedResponse) (prompt : String) : Option CachedResponse :=
  entries.find? (fun row => row.prompt_hash == hashPrompt prompt)

/-- Splits a lower-cased character list into whitespace-separated words,
embedding of str.split() with no argument; the first accumulator holds
the current word reversed. -/
def pyWordsAux : List Char → List Char → List (List Char)
  | [], acc => if acc.isEmpty then [] else [acc.reverse]
  | c :: cs, acc =>
    if c.isWhitespace then
      if acc.isEmpty then pyWordsAux cs [] else acc.reverse :: pyWordsAux cs []
    else pyWordsAux cs (c :: acc)

/-- Embedding of set(s.lower().split()): the deduplicated list of
lower-cased whitespace tokens of a string. -/
def wordSet (s : String) : List (List Char) :=
  (pyWordsAux (pyLower s) []).dedup

/-- Size of the intersection of the two token sets. -/
def interCount (a b : String) : Nat :=
  ((wordSet a).filter (fun w => w ∈ wordSet b)).length

/-- Size of the union of the two token sets. -/
def unionCount (a b : String) : Nat :=
  ((wordSet a) ++ (wordSet b)).dedup.length

/-- Token-set Jaccard similarity as computed inside
ResponseCache._get_semantic_match: intersection size over union size,
and 0 for an empty union. -/
def jaccardScore (a b : String) : ℚ :=
  if unionCount a b = 0 then 0 else (interCount a b : ℚ) / (unionCount a b : ℚ)

/-- The best-match candidate built by ResponseCache._get_semantic_match
from a row: the row with its confidence_score multiplied by the
similarity score. -/
def adjustSemantic (row : CachedResponse) (score : ℚ) : CachedResponse :=
  { row with confidence_score := row.confidence_score * score }

/-- The row loop of ResponseCache._get_semantic_match: scan the rows in
order, keeping the candidate with the strictly best score among those
whose score exceeds 0.6. -/
def semanticLoop (prompt : String) :
    List CachedResponse → ℚ → Option CachedResponse → Option CachedResponse
  | [], _, best => best
  | row :: rest, bestScore, best =>
    let score := jaccardScore prompt row.original_prompt
    if score > 3 / 5 ∧ score > bestScore then
      semanticLoop prompt rest score (some (adjustSemantic row score))
    else semanticLoop prompt rest bestScore best

/-- Embedding of ResponseCache._get_semantic_match on the list of cached
rows. -/
def getSemanticMatch (entries : List CachedResponse) (prompt : String) : Option CachedResponse :=
  semanticLoop prompt entries 0 none

/-- Service degradation levels, FallbackLevel in
fallback_strategies.py. -/
inductive FallbackLevel where
  | full_service
  | degraded_service
  | minimal_service
  | cache_only
  | human_handoff
  | service_down
deriving DecidableEq

/-- Embedding of the result dictionary returned by
FallbackStrategyManager.execute_with_fallbacks. The attempted_fallbacks
key, present only in the terminal-failure dictionary, is carried
separately in FallbackOutcome. -/
structure FallbackResult where
  success : Bool
  result : String
  fallback_level : FallbackLevel
  source : String
  confidence : ℚ
  handoff_id : Option String := none
deriving DecidableEq

/-- The keys of the caller-supplied context dictionary that the manager
reads: model_type when caching, and the three priority signals of
FallbackStrategyManager._determine_priority. -/
structure OpContext where
  document_type : Option String := none
  user_tier : Option String := none
  urgent : Bool := false
  model_type : Option String := none
deriving DecidableEq

/-- Embedding of FallbackStrategyManager._determine_priority. -/
def determinePriority (context : OpContext) : Nat :=
  let priority := 1
  let priority := if context.document_type = some "contract" then max priority 3 else priority
  let priority := if context.user_tier = some "premium" then max priority 4 else priority
  if context.urgent then 5 else priority

/-- Embedding of the HumanHandoffRequest dataclass. -/
structure HumanHandoffRequest where
  request_id : String
  original_prompt : String
  failure_reason : String
  attempted_fallbacks : List String
  timestamp : ℚ
  priority : Nat := 1
  context : OpContext := {}
  status : String := "pending"
deriving DecidableEq

/-- The ordering of HumanHandoffQueue.get_pending_requests: priority
descending, then timestamp ascending. -/
def handoffOrder (a b : HumanHandoffRequest) : Prop :=
  b.priority < a.priority ∨ (a.priority = b.priority ∧ a.timestamp ≤ b.timestamp)

instance : DecidableRel handoffOrder := fun a b => by
  unfold handoffOrder; exact instDecidableOr

instance : IsTotal HumanHandoffRequest handoffOrder where
  total a b := by
    unfold handoffOrder
    rcases Nat.lt_trichotomy a.priority b.priority with h | h | h
    · exact Or.inr (Or.inl h)
    · rcases le_total a.timestamp b.timestamp with ht | ht
      · exact Or.inl (Or.inr ⟨h, ht⟩)
      · exact Or.inr (Or.inr ⟨h.symm, ht⟩)
    · exact Or.inl (Or.inl h)

instance : IsTrans HumanHandoffRequest handoffOrder where
  trans a b c hab hbc := by
    unfold handoffOrder at *
    rcases hab with h1 | ⟨h1, ht1⟩
    · rcases hbc with h2 | ⟨h2, _⟩
      · exact Or.inl (h2.trans h1)
      · exact Or.inl (h2 ▸ h1)
    · rcases hbc with h2 | ⟨h2, ht2⟩
      · exact Or.inl (h1 ▸ h2)
      · exact Or.inr ⟨h1.trans h2, ht1.trans ht2⟩

/-- Embedding of HumanHandoffQueue.get_pending_requests: the pending
rows, ordered by priority descending then timestamp ascending, truncated
to the limit. -/
def getPendingRequests (queue : List HumanHandoffRequest) (limit : Nat) :
    List HumanHandoffRequest :=
  (List.insertionSort handoffOrder (queue.filter (fun r => r.status == "pending"))).take limit

/-- Embedding of FallbackStrategyManager._generate_template_response.
The Python return type is Optional, but every branch returns a
message. -/
def generateTemplateResponse (prompt : String) : Option String :=
  let pl := pyLower prompt
  if hasSub pl "hello".toList || hasSub pl "hi".toList || hasSub pl "greeting".toList then
    some "Hello! I\x27m currently experiencing technical difficulties. Please try again later or contact support."
  else if hasSub pl "help".toList || hasSub pl "support".toList then
    some "For immediate assistance, please contact our support team. We apologize for the inconvenience."
  else if hasSub pl "what is".toList || hasSub pl "define".toList then
    some "I\x27m unable to process your request at the moment. Please try rephrasing your question or contact support."
  else if hasSub pl "calculate".toList || hasSub pl "compute".toList then
    some "Our calculation services are temporarily unavailable. Please try again later."
  else
    some "I\x27m currently experiencing technical difficulties. Your request has been noted and will be processed as soon as possible."

/-- Outcomes of the effectful calls made during one invocation of
FallbackStrategyManager.execute_with_fallbacks: the primary operation
result, the cached rows visible to the lookups, and for every other
store interaction the exception it raised, if any. request_id stands for
the Python request id built from the operation id and the clock. -/
structure FallbackEnv where
  primary : Except PyExc String
  cacheWriteExc : Option PyExc := none
  entries : List CachedResponse := []
  exactExc : Option PyExc := none
  exactStatsExc : Option PyExc := none
  semanticExc : Option PyExc := none
  semanticStatsExc : Option PyExc := none
  templateExc : Option PyExc := none
  handoffExc : Option PyExc := none
  request_id : String := "op_0"
  now : ℚ := 0

/-- Level 1 of the cascade: run the primary operation and cache its
response. Returns the result to return, or the attempted_fallbacks entry
recorded by the except clause. A failure of the cache write is caught by
the same except clause and discards the primary result. -/
def primaryStage (env : FallbackEnv) : Option FallbackResult × Option String :=
  match env.primary with
  | .error e => (none, some ("primary: " ++ e.str))
  | .ok result =>
    match env.cacheWriteExc with
    | some e => (none, some ("primary: " ++ e.str))
    | none =>
      (some { success := true, result := result, fallback_level := .full_service,
              source := "primary", confidence := 1 }, none)

/-- Level 2 of the cascade: exact cache match, accepted when the stored
confidence exceeds 0.8; the cache-stats update can itself raise inside
the guarded block. -/
def exactStage (env : FallbackEnv) (prompt : String) : Option FallbackResult × Option String :=
  match env.exactExc with
  | some e => (none, some ("exact_cache: " ++ e.str))
  | none =>
    match getExactMatch env.entries prompt with
    | some cached =>
      if cached.confidence_score > 4 / 5 then
        match env.exactStatsExc with
        | some e => (none, some ("exact_cache: " ++ e.str))
        | none =>
          (some { success := true, result := cached.response,
                  fallback_level := .degraded_service, source := "cache_exact",
                  confidence := cached.confidence_score }, none)
      else (none, none)
    | none => (none, none)

/-- Level 3 of the cascade: semantic cache match, accepted when the
adjusted confidence exceeds 0.6. -/
def semanticStage (env : FallbackEnv) (prompt : String) : Option FallbackResult × Option String :=
  match env.semanticExc with
  | some e => (none, some ("semantic_cache: " ++ e.str))
  | none =>
    match getSemanticMatch env.entries prompt with
    | some cached =>
      if cached.confidence_score > 3 / 5 then
        match env.semanticStatsExc with
        | some e => (none, some ("semantic_cache: " ++ e.str))
        | none =>
          (some { success := true, result := "[Similar response] " ++ cached.response,
                  fallback_level := .minimal_service, source := "cache_semantic",
                  confidence := cached.confidence_score }, none)
      else (none, none)
    | none => (none, none)

/-- Level 4 of the cascade: template synthesis, used when it produces a
truthy (non-None, non-empty) message. -/
def templateStage (env : FallbackEnv) (prompt : String) : Option FallbackResult × Option String :=
  match env.templateExc with
  | some e => (none, some ("template: " ++ e.str))
  | none =>
    match generateTemplateResponse prompt with
    | some r =>
      if r ≠ "" then
        (some { success := true, result := r, fallback_level := .minimal_service,
                source := "template", confidence := 3 / 10 }, none)
      else (none, none)
    | none => (none, none)

/-- Python repr of a list of strings, used in the failure_reason text of
a handoff request. -/
def pyListRepr (xs : List String) : String :=
  "[" ++ String.intercalate ", " (xs.map (fun s => "\x27" ++ s ++ "\x27")) ++ "]"

/-- The HumanHandoffRequest built at level 5 of the cascade. -/
def buildHandoffRequest (env : FallbackEnv) (prompt : String) (context : OpContext)
    (attempted : List String) : HumanHandoffRequest :=
  { request_id := env.request_id
    original_prompt := prompt
    failure_reason := "All fallbacks failed: " ++ pyListRepr attempted
    attempted_fallbacks := attempted
    timestamp := env.now
    priority := determinePriority context
    context := context
    status := "pending" }

/-- Level 5 of the cascade: enqueue a human handoff request; returns the
handoff result together with the enqueued request. -/
def handoffStage (env : FallbackEnv) (prompt : String) (context : OpContext)
    (attempted : List String) :
    Option (FallbackResult × HumanHandoffRequest) × Option String :=
  match env.handoffExc with
  | some e => (none, some ("human_handoff: " ++ e.str))
  | none =>
    let req := buildHandoffRequest env prompt context attempted
    (some ({ success := false,
             result := "Request queued for human review (ID: " ++ req.request_id ++ ")",
             fallback_level := .human_handoff, source := "human_queue", confidence := 0,
             handoff_id := some req.request_id }, req), none)

/-- Appends an attempted_fallbacks entry when a stage recorded one. -/
def appendTrace (af : List String) : Option String → List String
  | none => af
  | some s => af ++ [s]

/-- Everything observable from one invocation of
execute_with_fallbacks: the returned dictionary, the final
attempted_fallbacks list, and the handoff request enqueued, if any. -/
structure FallbackOutcome where
  result : FallbackResult
  attempted_fallbacks : List String
  enqueued : Option HumanHandoffRequest
deriving DecidableEq

/-- Embedding of FallbackStrategyManager.execute_with_fallbacks: the
five-level cascade ending in the terminal SERVICE_DOWN result. -/
def executeWithFallbacks (env : FallbackEnv) (prompt : String) (context : OpContext) :
    FallbackOutcome :=
  match primaryStage env with
  | (some r, _) => ⟨r, [], none⟩
  | (none, t1) =>
    let af := appendTrace [] t1
    match exactStage env prompt with
    | (some r, _) => ⟨r, af, none⟩
    | (none, t2) =>
      let af := appendTrace af t2
      match semanticStage env prompt with
      | (some r, _) => ⟨r, af, none⟩
      | (none, t3) =>
        let af := appendTrace af t3
        match templateStage env prompt with
        | (some r, _) => ⟨r, af, none⟩
        | (none, t4) =>
          let af := appendTrace af t4
          match handoffStage env prompt context af with
          | (some (r, req), _) => ⟨r, af, some req⟩
          | (none, t5) =>
            let af := appendTrace af t5
            ⟨{ success := false, result := "All fallback strategies failed",
               fallback_level := .service_down, source := "failure", confidence := 0 },
              af, none⟩

/-- Environment used to refute claim C1 as stated: the primary operation
fails, both cache lookups find nothing, template synthesis raises, and
the handoff enqueue succeeds. -/
def envC1 : FallbackEnv :=
  { primary := .error (.otherExc "RuntimeError" "model down"),
    templateExc := some (.otherExc "RuntimeError" "template crashed") }

/-- Environment witnessing claim C9: the primary operation computes a
value but caching the response raises. -/
def envC9 : FallbackEnv :=
  { primary := .ok "4", cacheWriteExc := some (.otherExc "OperationalError" "disk full") }

/-- Environment witnessing claim C10: only the primary operation fails;
every store interaction succeeds and the cache is empty. -/
def envC10 : FallbackEnv :=
  { primary := .error (.otherExc "RuntimeError" "model down") }

/-- Cached row used to refute claim C6 as stated: its stored confidence
is 0.7, so a similarity score of 2/3 leaves the adjusted confidence
below the 0.6 acceptance bound of the manager. -/
def eC6 : CachedResponse :=
  { prompt_hash := "h1", original_prompt := "alpha beta gamma delta epsilon",
    response := "resp", model_type := "m", timestamp := 0, confidence_score := 7 / 10 }

/-- Environment for the C6 counterexample: primary fails, exact cache
misses, and the single cached row is eC6. -/
def envC6 : FallbackEnv :=
  { primary := .error (.otherExc "RuntimeError" "model down"), entries := [eC6] }

/-- Cached row with the default stored confidence 1.0, used to witness
the amended C6 acceptance. -/
def eC6b : CachedResponse :=
  { prompt_hash := "h2", original_prompt := "alpha beta gamma delta epsilon",
    response := "resp2", model_type := "m", timestamp := 0 }

/-- Environment for the C6 witness: primary fails, exact cache misses,
a full-confidence row is semantically close to the prompt. -/
def envC6b : FallbackEnv :=
  { primary := .error (.otherExc "RuntimeError" "model down"), entries := [eC6b] }

/-- A low-priority handoff request enqueued at time 0, used in the C8
instance. -/
def rLow : HumanHandoffRequest :=
  { request_id := "r1", original_prompt := "p1", failure_reason := "f",
    attempted_fallbacks := [], timestamp := 0, priority := 1 }

/-- Environment whose cascade reaches the handoff stage at time 1, used
to build the urgent request of the C8 instance. -/
def envC8 : FallbackEnv :=
  { primary := .error (.otherExc "RuntimeError" "model down"), request_id := "r2", now := 1 }

/-- The handoff request the manager enqueues for an urgent context: its
priority comes from _determine_priority. -/
def rUrg : HumanHandoffRequest :=
  buildHandoffRequest envC8 "p2" { urgent := true } ["primary: model down"]

/-- An open breaker whose retry window opens at time 10, used in the C2
witness. -/
def brOpen : CircuitBreakerState := { state := .opened, next_attempt_time := some 10 }

/-- Configuration with a failure threshold of 1 used to reach a
half-open breaker concretely in the C3 witness. -/
def cfgC3 : RetryConfig := { failure_threshold := 1, recovery_timeout := 1 }

/-- The breaker after one failure at time 0 under cfgC3: open. -/
def bOpen1 : CircuitBreakerState := recordFailure cfgC3 initialBreaker 0

/-- The breaker after the gate check at time 5: half-open with its
failure count intact. -/
def bHalfC3 : CircuitBreakerState := (canExecute bOpen1 5).2

/-- A half-open breaker with prior failures, used in the C7 witness. -/
def bHalfC7 : CircuitBreakerState := { state := .half_open, failure_count := 3 }

/-- The backoff delay of _calculate_delay just before the jitter block:
0 for the immediate strategy (which returns early), otherwise the
strategy formula clamped to max_delay. -/
def clampedDelay (attempt : Nat) (config : RetryConfig) : ℚ :=
  if config.strategy = .immediate then 0
  else
    min (if config.strategy = .fixed_delay then config.base_delay
      else if config.strategy = .linear_backoff then config.base_delay * attempt
      else if config.strategy = .exponential_backoff then
        config.base_delay * config.backoff_multiplier ^ (attempt - 1)
      else config.base_delay) config.max_delay

instance {ε α : Type} [DecidableEq ε] [DecidableEq α] : DecidableEq (Except ε α) := fun x y =>
  match x, y with
  | .ok a, .ok b => if h : a = b then .isTrue (by rw [h]) else .isFalse (by simp [h])
  | .error a, .error b => if h : a = b then .isTrue (by rw [h]) else .isFalse (by simp [h])
  | .ok _, .error _ => .isFalse (by simp)
  | .error _, .ok _ => .isFalse (by simp)

/-- Any result returned from level 1 is a successful FULL_SERVICE result
from the primary source. -/
theorem primaryStage_some {env : FallbackEnv} {r : FallbackResult} {t : Option String}
    (h : primaryStage env = (some r, t)) :
    r.success = true ∧ r.fallback_level = .full_service ∧ r.source = "primary" := by
  unfold primaryStage at h
  rcases hp : env.primary with e | v <;> rw [hp] at h
  · simp at h
  · rcases hw : env.cacheWriteExc with _ | e <;> rw [hw] at h <;> simp at h
    rcases h with ⟨h1, _⟩
    subst h1; exact ⟨rfl, rfl, rfl⟩

/-- Any result returned from level 2 is a successful DEGRADED_SERVICE
result from the exact cache. -/
theorem exactStage_some {env : FallbackEnv} {prompt : String} {r : FallbackResult}
    {t : Option String} (h : exactStage env prompt = (some r, t)) :
    r.success = true ∧ r.fallback_level = .degraded_service ∧ r.source = "cache_exact" := by
  unfold exactStage at h
  rcases hx : env.exactExc with _ | e <;> rw [hx] at h
  · rcases hm : getExactMatch env.entries prompt with _ | cached <;> rw [hm] at h
    · simp at h
    · dsimp only at h
      by_cases hc : cached.confidence_score > 4 / 5
      · rw [if_pos hc] at h
        rcases hs : env.exactStatsExc with _ | e <;> rw [hs] at h
        · simp at h
          rcases h with ⟨h1, _⟩
          subst h1; exact ⟨rfl, rfl, rfl⟩
        · simp at h
      · rw [if_neg hc] at h; simp at h
  · simp at h

/-- Any result returned from level 3 is a successful MINIMAL_SERVICE
result from the semantic cache. -/
theorem semanticStage_some {env : FallbackEnv} {prompt : String} {r : FallbackResult}
    {t : Option String} (h : semanticStage env prompt = (some r, t)) :
    r.success = true ∧ r.fallback_level = .minimal_service ∧ r.source = "cache_semantic" := by
  unfold semanticStage at h
  rcases hx : env.semanticExc with _ | e <;> rw [hx] at h
  · rcases hm : getSemanticMatch env.entries prompt with _ | cached <;> rw [hm] at h
    · simp at h
    · dsimp only at h
      by_cases hc : cached.confidence_score > 3 / 5
      · rw [if_pos hc] at h
        rcases hs : env.semanticStatsExc with _ | e <;> rw [hs] at h
        · simp at h
          rcases h with ⟨h1, _⟩
          subst h1; exact ⟨rfl, rfl, rfl⟩
        · simp at h
      · rw [if_neg hc] at h; simp at h
  · simp at h

/-- Any result returned from level 4 is a successful MINIMAL_SERVICE
result from the template source, carrying the synthesized message and
confidence 0.3. -/
theorem templateStage_some {env : FallbackEnv} {prompt : String} {r : FallbackResult}
    {t : Option String} (h : templateStage env prompt = (some r, t)) :
    r.success = true ∧ r.fallback_level = .minimal_service ∧ r.source = "template" ∧
      generateTemplateResponse prompt = some r.result ∧ r.confidence = 3 / 10 := by
  unfold templateStage at h
  rcases hx : env.templateExc with _ | e <;> rw [hx] at h
  · rcases hm : generateTemplateResponse prompt with _ | m <;> rw [hm] at h
    · simp at h
    · dsimp only at h
      by_cases hne : m ≠ ""
      · rw [if_pos hne] at h
        simp at h
        rcases h with ⟨h1, _⟩
        subst h1; exact ⟨rfl, rfl, rfl, rfl, rfl⟩
      · rw [if_neg hne] at h; simp at h
  · simp at h

/-- Any result returned from level 5 is the failure-signaling
HUMAN_HANDOFF result, and the enqueued request is the one built from the
collected attempted fallbacks. -/
theorem handoffStage_some {env : FallbackEnv} {prompt : String} {context : OpContext}
    {af : List String} {r : FallbackResult} {req : HumanHandoffRequest} {t : Option String}
    (h : handoffStage env prompt context af = (some (r, req), t)) :
    r.success = false ∧ r.fallback_level = .human_handoff ∧ r.source = "human_queue" ∧
      req = buildHandoffRequest env prompt context af ∧
      r.handoff_id = some req.request_id := by
  unfold handoffStage at h
  rcases hx : env.handoffExc with _ | e <;> rw [hx] at h
  · simp at h
    rcases h with ⟨⟨h1, h2⟩, _⟩
    subst h1; subst h2
    exact ⟨rfl, rfl, rfl, rfl, rfl⟩
  · simp at h

/-- C1 counterexample: in the environment envC1 the cascade ends at the
human-handoff level, whose result reports success = false even though
its fallback_level is not SERVICE_DOWN — so SERVICE_DOWN is not the only
failure-signaling outcome. -/
theorem C1_counterexample :
    (executeWithFallbacks envC1 "ping" {}).result.success = false ∧
    (executeWithFallbacks envC1 "ping" {}).result.fallback_level = FallbackLevel.human_handoff ∧
    (executeWithFallbacks envC1 "ping" {}).result.fallback_level ≠ FallbackLevel.service_down :=
  ⟨by decide, by decide, by decide⟩

/-- C1 (amended): executeWithFallbacks is a total function into
structured FallbackResult values — in this embedding every stage
exception is absorbed by construction — and its failure-signaling
outcomes are exactly the HUMAN_HANDOFF and SERVICE_DOWN levels: a result
reports success = false if and only if its fallback_level is one of
those two. -/
theorem C1_failure_signaling (env : FallbackEnv) (prompt : String) (context : OpContext) :
    ((executeWithFallbacks env prompt context).result.success = false ↔
      ((executeWithFallbacks env prompt context).result.fallback_level =
          FallbackLevel.human_handoff ∨
        (executeWithFallbacks env prompt context).result.fallback_level =
          FallbackLevel.service_down)) := by
  unfold executeWithFallbacks
  split
  · rename_i r snd heq
    obtain ⟨hs, hl, -⟩ := primaryStage_some heq
    simp [hs, hl]
  · rename_i t1 heq1
    try dsimp only
    split
    · rename_i r snd heq
      obtain ⟨hs, hl, -⟩ := exactStage_some heq
      simp [hs, hl]
    · rename_i t2 heq2
      try dsimp only
      split
      · rename_i r snd heq
        obtain ⟨hs, hl, -⟩ := semanticStage_some heq
        simp [hs, hl]
      · rename_i t3 heq3
        try dsimp only
        split
        · rename_i r snd heq
          obtain ⟨hs, hl, -, -⟩ := templateStage_some heq
          simp [hs, hl]
        · rename_i t4 heq4
          try dsimp only
          split
          · rename_i r req snd heq
            obtain ⟨hs, hl, -, -, -⟩ := handoffStage_some heq
            simp [hs, hl]
          · rename_i t5 heq5
            simp

/-- Template synthesis always produces a message, and a non-empty one:
every branch of _generate_template_response returns a literal string. -/
theorem generateTemplateResponse_always (prompt : String) :
    ∃ s, generateTemplateResponse prompt = some s ∧ s ≠ "" := by
  unfold generateTemplateResponse
  dsimp only
  repeat' split
  all_goals exact ⟨_, rfl, by decide⟩

/-- When template synthesis does not raise, level 4 returns the
template result built from the always-present synthesized message. -/
theorem templateStage_no_exc_eq (env : FallbackEnv) (prompt : String)
    (h : env.templateExc = none) :
    ∃ s, generateTemplateResponse prompt = some s ∧
      templateStage env prompt =
        (some { success := true, result := s, fallback_level := .minimal_service,
                source := "template", confidence := 3 / 10 }, none) := by
  obtain ⟨s, hs, hne⟩ := generateTemplateResponse_always prompt
  refine ⟨s, hs, ?_⟩
  unfold templateStage
  rw [h, hs]
  dsimp only
  rw [if_pos hne]

/-- Appending a trace entry never changes a non-empty head. -/
theorem head_appendTrace {l : List String} {s : String} (t : Option String)
    (h : l.head? = some s) : (appendTrace l t).head? = some s := by
  cases t <;> cases l <;> simp_all [appendTrace]

/-- After a failed primary stage the cascade can no longer produce a
FULL_SERVICE result or the primary source, and the first
attempted_fallbacks entry is the one recorded by level 1. -/
theorem cascade_after_primary_failure (env : FallbackEnv) (prompt : String)
    (context : OpContext) (s : String) (h1 : primaryStage env = (none, some s)) :
    (executeWithFallbacks env prompt context).result.fallback_level ≠
        FallbackLevel.full_service ∧
      (executeWithFallbacks env prompt context).result.source ≠ "primary" ∧
      (executeWithFallbacks env prompt context).attempted_fallbacks.head? = some s := by
  unfold executeWithFallbacks
  rw [h1]
  try dsimp only
  have hbase : (appendTrace [] (some s)).head? = some s := rfl
  split
  · rename_i r snd heq
    obtain ⟨-, hl, hsrc⟩ := exactStage_some heq
    simp [hl, hsrc, hbase]
  · rename_i t2 heq2
    try dsimp only
    split
    · rename_i r snd heq
      obtain ⟨-, hl, hsrc⟩ := semanticStage_some heq
      simp [hl, hsrc, head_appendTrace t2 hbase]
    · rename_i t3 heq3
      try dsimp only
      split
      · rename_i r snd heq
        obtain ⟨-, hl, hsrc, -, -⟩ := templateStage_some heq
        simp [hl, hsrc, head_appendTrace t3 (head_appendTrace t2 hbase)]
      · rename_i t4 heq4
        try dsimp only
        split
        · rename_i r req snd heq
          obtain ⟨-, hl, hsrc, -, -⟩ := handoffStage_some heq
          simp [hl, hsrc,
            head_appendTrace t4 (head_appendTrace t3 (head_appendTrace t2 hbase))]
        · rename_i t5 heq5
          simp [head_appendTrace t5
            (head_appendTrace t4 (head_appendTrace t3 (head_appendTrace t2 hbase)))]

/-- C9: if the primary operation succeeds but caching its response
raises, the FULL_SERVICE result is not returned — the exception is
caught and recorded as the primary-stage entry of attempted_fallbacks,
and the cascade behaves exactly as if the primary operation had failed
with that exception, proceeding to the cache-lookup stages. -/
theorem C9_cache_write_failure_discards_primary (env : FallbackEnv) (prompt : String)
    (context : OpContext) (v : String) (e : PyExc)
    (hp : env.primary = .ok v) (hw : env.cacheWriteExc = some e) :
    (executeWithFallbacks env prompt context).result.fallback_level ≠
        FallbackLevel.full_service ∧
      (executeWithFallbacks env prompt context).result.source ≠ "primary" ∧
      (executeWithFallbacks env prompt context).attempted_fallbacks.head? =
        some ("primary: " ++ e.str) ∧
      executeWithFallbacks env prompt context =
        executeWithFallbacks { env with primary := .error e, cacheWriteExc := none }
          prompt context := by
  have h1 : primaryStage env = (none, some ("primary: " ++ e.str)) := by
    unfold primaryStage
    rw [hp, hw]
  obtain ⟨ha, hb, hc⟩ := cascade_after_primary_failure env prompt context _ h1
  refine ⟨ha, hb, hc, ?_⟩
  have h1' : primaryStage { env with primary := .error e, cacheWriteExc := none } =
      (none, some ("primary: " ++ e.str)) := rfl
  have he : exactStage { env with primary := .error e, cacheWriteExc := none } prompt =
      exactStage env prompt := rfl
  have hsem : semanticStage { env with primary := .error e, cacheWriteExc := none } prompt =
      semanticStage env prompt := rfl
  have htem : templateStage { env with primary := .error e, cacheWriteExc := none } prompt =
      templateStage env prompt := rfl
  have hhand : ∀ af, handoffStage { env with primary := .error e, cacheWriteExc := none }
      prompt context af = handoffStage env prompt context af := fun _ => rfl
  unfold executeWithFallbacks
  rw [h1, h1']
  simp only [he, hsem, htem, hhand]

/-- C9 witness: the environment envC9 instantiates the claim with a
successful primary value and a failing cache write. -/
theorem C9_witness :
    (executeWithFallbacks envC9 "What is 2+2?" {}).result.fallback_level ≠
        FallbackLevel.full_service ∧
      (executeWithFallbacks envC9 "What is 2+2?" {}).attempted_fallbacks.head? =
        some ("primary: " ++ "disk full") :=
  ⟨(C9_cache_write_failure_discards_primary envC9 "What is 2+2?" {} "4"
      (.otherExc "OperationalError" "disk full") rfl rfl).1,
    (C9_cache_write_failure_discards_primary envC9 "What is 2+2?" {} "4"
      (.otherExc "OperationalError" "disk full") rfl rfl).2.2.1⟩

/-- C10: template synthesis returns a non-None (and non-empty) message
for every prompt, so when the first three stages fail and the template
stage does not raise, the cascade returns the MINIMAL_SERVICE template
result with confidence 0.3 — and whenever the template stage does not
raise, the HUMAN_HANDOFF and SERVICE_DOWN outcomes are unreachable. -/
theorem C10_template_gate (env : FallbackEnv) (prompt : String) (context : OpContext) :
    (∃ s, generateTemplateResponse prompt = some s ∧ s ≠ "") ∧
    (env.templateExc = none →
      (executeWithFallbacks env prompt context).result.fallback_level ≠
          FallbackLevel.human_handoff ∧
        (executeWithFallbacks env prompt context).result.fallback_level ≠
          FallbackLevel.service_down) ∧
    ((primaryStage env).1 = none → (exactStage env prompt).1 = none →
      (semanticStage env prompt).1 = none → env.templateExc = none →
      ∃ s, generateTemplateResponse prompt = some s ∧
        (executeWithFallbacks env prompt context).result =
          { success := true, result := s, fallback_level := FallbackLevel.minimal_service,
            source := "template", confidence := 3 / 10 }) := by
  refine ⟨generateTemplateResponse_always prompt, ?_, ?_⟩
  · intro h
    obtain ⟨s, -, hT⟩ := templateStage_no_exc_eq env prompt h
    unfold executeWithFallbacks
    split
    · rename_i r snd heq
      obtain ⟨-, hl, -⟩ := primaryStage_some heq
      simp [hl]
    · rename_i t1 heq1
      try dsimp only
      split
      · rename_i r snd heq
        obtain ⟨-, hl, -⟩ := exactStage_some heq
        simp [hl]
      · rename_i t2 heq2
        try dsimp only
        split
        · rename_i r snd heq
          obtain ⟨-, hl, -⟩ := semanticStage_some heq
          simp [hl]
        · rename_i t3 heq3
          try dsimp only
          split
          · rename_i r snd heq
            obtain ⟨-, hl, -, -⟩ := templateStage_some heq
            simp [hl]
          · rename_i t4 heq4
            rw [hT] at heq4
            simp at heq4
  · intro h1 h2 h3 h4
    obtain ⟨s, hs, hT⟩ := templateStage_no_exc_eq env prompt h4
    refine ⟨s, hs, ?_⟩
    unfold executeWithFallbacks
    split
    · rename_i r snd heq
      rw [heq] at h1
      simp at h1
    · rename_i t1 heq1
      try dsimp only
      split
      · rename_i r snd heq
        rw [heq] at h2
        simp at h2
      · rename_i t2 heq2
        try dsimp only
        split
        · rename_i r snd heq
          rw [heq] at h3
          simp at h3
        · rename_i t3 heq3
          try dsimp only
          split
          · rename_i r snd heq
            rw [hT] at heq
            simp at heq
            rw [heq.1.symm]
          · rename_i t4 heq4
            rw [hT] at heq4
            simp at heq4

/-- C10 witness: with only the primary operation failing and an empty
cache, the prompt containing the hello keyword yields the template
result, and the handoff and terminal levels are not reached. -/
theorem C10_witness :
    ((executeWithFallbacks envC10 "hello there" {}).result.fallback_level ≠
        FallbackLevel.human_handoff ∧
      (executeWithFallbacks envC10 "hello there" {}).result.fallback_level ≠
        FallbackLevel.service_down) ∧
    ∃ s, generateTemplateResponse "hello there" = some s ∧
      (executeWithFallbacks envC10 "hello there" {}).result =
        { success := true, result := s, fallback_level := FallbackLevel.minimal_service,
          source := "template", confidence := 3 / 10 } :=
  ⟨(C10_template_gate envC10 "hello there" {}).2.1 rfl,
    (C10_template_gate envC10 "hello there" {}).2.2 rfl rfl rfl rfl⟩

/-- Invariant-carrying correctness of the row loop of the semantic
lookup: relative to a universe list u containing every remaining row,
and an accumulator that is either empty or a candidate built from a row
of u scoring above the threshold, the loop returns a candidate built
from a maximum-scoring row, and returns none exactly when it started
empty and no remaining row clears the threshold. -/
theorem semanticLoop_spec (prompt : String) (u : List CachedResponse)
    (l : List CachedResponse) :
    ∀ (bs : ℚ) (best : Option CachedResponse),
      (∀ x ∈ l, x ∈ u) →
      ((best = none ∧ bs = 0) ∨
        (∃ e0 ∈ u, bs = jaccardScore prompt e0.original_prompt ∧ bs > 3 / 5 ∧
          best = some (adjustSemantic e0 bs))) →
      ((∀ c, semanticLoop prompt l bs best = some c →
          ∃ e ∈ u, jaccardScore prompt e.original_prompt > 3 / 5 ∧
            c = adjustSemantic e (jaccardScore prompt e.original_prompt) ∧
            bs ≤ jaccardScore prompt e.original_prompt ∧
            ∀ e' ∈ l, jaccardScore prompt e'.original_prompt ≤
              jaccardScore prompt e.original_prompt) ∧
        (semanticLoop prompt l bs best = none →
          best = none ∧ ∀ e ∈ l, ¬ jaccardScore prompt e.original_prompt > 3 / 5)) := by
  induction l with
  | nil =>
    intro bs best hsub hinv
    constructor
    · intro c hc
      rw [show semanticLoop prompt [] bs best = best from rfl] at hc
      rcases hinv with ⟨hb, -⟩ | ⟨e0, he0, hbs, hgt, hbest⟩
      · rw [hb] at hc
        exact absurd hc (by simp)
      · rw [hbest] at hc
        refine ⟨e0, he0, ?_, ?_, ?_, by simp⟩
        · rw [← hbs]; exact hgt
        · rw [← hbs]
          exact (Option.some.injEq _ _ ▸ hc).symm
        · rw [hbs]
    · intro hnone
      rw [show semanticLoop prompt [] bs best = best from rfl] at hnone
      exact ⟨hnone, by simp⟩
  | cons row rest ih =>
    intro bs best hsub hinv
    have hrow : row ∈ u := hsub row (by simp)
    have hrest : ∀ x ∈ rest, x ∈ u := fun x hx => hsub x (by simp [hx])
    by_cases hcond : jaccardScore prompt row.original_prompt > 3 / 5 ∧
        jaccardScore prompt row.original_prompt > bs
    · have heq : semanticLoop prompt (row :: rest) bs best =
          semanticLoop prompt rest (jaccardScore prompt row.original_prompt)
            (some (adjustSemantic row (jaccardScore prompt row.original_prompt))) := by
        show (if _ then _ else _) = _
        rw [if_pos hcond]
      have hinv' : (some (adjustSemantic row (jaccardScore prompt row.original_prompt)) = none ∧
            jaccardScore prompt row.original_prompt = 0) ∨
          (∃ e0 ∈ u, jaccardScore prompt row.original_prompt =
              jaccardScore prompt e0.original_prompt ∧
            jaccardScore prompt row.original_prompt > 3 / 5 ∧
            some (adjustSemantic row (jaccardScore prompt row.original_prompt)) =
              some (adjustSemantic e0 (jaccardScore prompt row.original_prompt))) :=
        Or.inr ⟨row, hrow, rfl, hcond.1, rfl⟩
      obtain ⟨ihs, ihn⟩ := ih _ _ hrest hinv'
      constructor
      · intro c hc
        rw [heq] at hc
        obtain ⟨e, he, hgt, hce, hble, hmax⟩ := ihs c hc
        refine ⟨e, he, hgt, hce, le_of_lt (lt_of_lt_of_le hcond.2 hble), ?_⟩
        intro e' he'
        rcases List.mem_cons.mp he' with rfl | hmem
        · exact hble
        · exact hmax e' hmem
      · intro hnone
        rw [heq] at hnone
        obtain ⟨hb, -⟩ := ihn hnone
        exact absurd hb (by simp)
    · have heq : semanticLoop prompt (row :: rest) bs best =
          semanticLoop prompt rest bs best := by
        show (if _ then _ else _) = _
        rw [if_neg hcond]
      obtain ⟨ihs, ihn⟩ := ih bs best hrest hinv
      constructor
      · intro c hc
        rw [heq] at hc
        obtain ⟨e, he, hgt, hce, hble, hmax⟩ := ihs c hc
        refine ⟨e, he, hgt, hce, hble, ?_⟩
        intro e' he'
        rcases List.mem_cons.mp he' with rfl | hmem
        · rcases not_and_or.mp hcond with h | h
          · push_neg at h
            linarith
          · push_neg at h
            linarith
        · exact hmax e' hmem
      · intro hnone
        rw [heq] at hnone
        obtain ⟨hb, hall⟩ := ihn hnone
        refine ⟨hb, ?_⟩
        intro e he'
        rcases List.mem_cons.mp he' with rfl | hmem
        · rcases hinv with ⟨-, hbs0⟩ | ⟨e0, -, -, -, hbest⟩
          · intro hgt
            exact hcond ⟨hgt, by rw [hbs0]; linarith⟩
          · rw [hbest] at hb
            exact absurd hb (by simp)
        · exact hall e hmem

/-- Characterization of the semantic lookup: a hit is built from a
maximum-scoring row clearing the 0.6 threshold by multiplying its stored
confidence with the score, and a miss means no row clears the
threshold. -/
theorem getSemanticMatch_spec (entries : List CachedResponse) (prompt : String) :
    (∀ c, getSemanticMatch entries prompt = some c →
      ∃ e ∈ entries, jaccardScore prompt e.original_prompt > 3 / 5 ∧
        c = adjustSemantic e (jaccardScore prompt e.original_prompt) ∧
        ∀ e' ∈ entries, jaccardScore prompt e'.original_prompt ≤
          jaccardScore prompt e.original_prompt) ∧
    (getSemanticMatch entries prompt = none →
      ∀ e ∈ entries, ¬ jaccardScore prompt e.original_prompt > 3 / 5) := by
  obtain ⟨hs, hn⟩ := semanticLoop_spec prompt entries entries 0 none
    (fun x hx => hx) (Or.inl ⟨rfl, rfl⟩)
  constructor
  · intro c hc
    obtain ⟨e, he, hgt, hce, -, hmax⟩ := hs c hc
    exact ⟨e, he, hgt, hce, hmax⟩
  · intro hc
    exact (hn hc).2

/-- Level 3 accepts exactly when the semantic lookup produced a
candidate whose adjusted confidence exceeds 0.6, and then returns the
approximate-response result. -/
theorem semanticStage_inv {env : FallbackEnv} {prompt : String}
    (hx : env.semanticExc = none) (hs : env.semanticStatsExc = none) :
    (∀ c, getSemanticMatch env.entries prompt = some c → c.confidence_score > 3 / 5 →
      semanticStage env prompt =
        (some { success := true, result := "[Similar response] " ++ c.response,
                fallback_level := .minimal_service, source := "cache_semantic",
                confidence := c.confidence_score }, none)) ∧
    (∀ r t, semanticStage env prompt = (some r, t) →
      ∃ c, getSemanticMatch env.entries prompt = some c ∧ c.confidence_score > 3 / 5 ∧
        r = { success := true, result := "[Similar response] " ++ c.response,
              fallback_level := .minimal_service, source := "cache_semantic",
              confidence := c.confidence_score }) := by
  constructor
  · intro c hm hc
    unfold semanticStage
    rw [hx, hm]
    dsimp only
    rw [if_pos hc, hs]
  · intro r t h
    unfold semanticStage at h
    rw [hx] at h
    rcases hm : getSemanticMatch env.entries prompt with _ | c <;> rw [hm] at h
    · simp at h
    · dsimp only at h
      by_cases hc : c.confidence_score > 3 / 5
      · rw [if_pos hc, hs] at h
        simp at h
        exact ⟨c, rfl, hc, h.1.symm⟩
      · rw [if_neg hc] at h
        simp at h

/-- C6 (amended): the semantic-cache stage computes token-set Jaccard
similarity between the lower-cased whitespace tokens of the prompt and
each cached row, selects a maximum-scoring row above 0.6, and multiplies
its stored confidence by the score; the manager then accepts exactly
when that adjusted confidence also exceeds 0.6, returning the
MINIMAL_SERVICE result with source cache_semantic and the adjusted
confidence. -/
theorem C6_semantic_acceptance (env : FallbackEnv) (prompt : String) (context : OpContext)
    (hp : (primaryStage env).1 = none) (he : (exactStage env prompt).1 = none)
    (hx : env.semanticExc = none) (hst : env.semanticStatsExc = none) :
    (∀ c, getSemanticMatch env.entries prompt = some c →
      ∃ e ∈ env.entries, jaccardScore prompt e.original_prompt > 3 / 5 ∧
        c.confidence_score = e.confidence_score * jaccardScore prompt e.original_prompt ∧
        c.response = e.response ∧
        ∀ e' ∈ env.entries, jaccardScore prompt e'.original_prompt ≤
          jaccardScore prompt e.original_prompt) ∧
    ((executeWithFallbacks env prompt context).result.source = "cache_semantic" ↔
      ∃ c, getSemanticMatch env.entries prompt = some c ∧ c.confidence_score > 3 / 5) ∧
    (∀ c, getSemanticMatch env.entries prompt = some c → c.confidence_score > 3 / 5 →
      (executeWithFallbacks env prompt context).result =
        { success := true, result := "[Similar response] " ++ c.response,
          fallback_level := FallbackLevel.minimal_service, source := "cache_semantic",
          confidence := c.confidence_score }) := by
  refine ⟨?_, ⟨?_, ?_⟩, ?_⟩
  · intro c hc
    obtain ⟨e, he', hgt, hce, hmax⟩ := (getSemanticMatch_spec env.entries prompt).1 c hc
    exact ⟨e, he', hgt, by rw [hce]; rfl, by rw [hce]; rfl, hmax⟩
  · intro hsrc
    revert hsrc
    unfold executeWithFallbacks
    split
    · rename_i r snd heq
      rw [heq] at hp
      simp at hp
    · rename_i t1 heq1
      try dsimp only
      split
      · rename_i r snd heq
        rw [heq] at he
        simp at he
      · rename_i t2 heq2
        try dsimp only
        split
        · rename_i r snd heq
          intro _
          obtain ⟨c, hm, hc, -⟩ := (semanticStage_inv hx hst).2 r snd heq
          exact ⟨c, hm, hc⟩
        · rename_i t3 heq3
          try dsimp only
          split
          · rename_i r snd heq
            obtain ⟨-, -, hsrc', -, -⟩ := templateStage_some heq
            intro hbad
            rw [hsrc'] at hbad
            simp at hbad
          · rename_i t4 heq4
            try dsimp only
            split
            · rename_i r req snd heq
              obtain ⟨-, -, hsrc', -, -⟩ := handoffStage_some heq
              intro hbad
              rw [hsrc'] at hbad
              simp at hbad
            · rename_i t5 heq5
              intro hbad
              simp at hbad
  · rintro ⟨c, hm, hc⟩
    have hacc := (semanticStage_inv hx hst).1 c hm hc
    unfold executeWithFallbacks
    split
    · rename_i r snd heq
      rw [heq] at hp
      simp at hp
    · rename_i t1 heq1
      try dsimp only
      split
      · rename_i r snd heq
        rw [heq] at he
        simp at he
      · rename_i t2 heq2
        try dsimp only
        split
        · rename_i r snd heq
          rw [hacc] at heq
          simp at heq
          rw [heq.1.symm]
        · rename_i t3 heq3
          rw [hacc] at heq3
          simp at heq3
  · intro c hm hc
    have hacc := (semanticStage_inv hx hst).1 c hm hc
    unfold executeWithFallbacks
    split
    · rename_i r snd heq
      rw [heq] at hp
      simp at hp
    · rename_i t1 heq1
      try dsimp only
      split
      · rename_i r snd heq
        rw [heq] at he
        simp at he
      · rename_i t2 heq2
        try dsimp only
        split
        · rename_i r snd heq
          rw [hacc] at heq
          simp at heq
          rw [heq.1.symm]
        · rename_i t3 heq3
          rw [hacc] at heq3
          simp at heq3

/-- C6 counterexample: with stored confidence 0.7 and similarity score
2/3 > 0.6, the semantic stage does not accept — the cascade falls
through to the template stage — refuting that acceptance happens exactly
when the score exceeds 0.6. -/
theorem C6_counterexample :
    jaccardScore "alpha beta gamma delta zeta" eC6.original_prompt = 2 / 3 ∧
    (2 / 3 : ℚ) > 3 / 5 ∧
    getSemanticMatch envC6.entries "alpha beta gamma delta zeta" =
      some (adjustSemantic eC6 (2 / 3)) ∧
    ¬ (adjustSemantic eC6 (2 / 3)).confidence_score > 3 / 5 ∧
    (executeWithFallbacks envC6 "alpha beta gamma delta zeta" {}).result.source = "template" ∧
    (executeWithFallbacks envC6 "alpha beta gamma delta zeta" {}).result.source ≠
      "cache_semantic" := by
  have hj : jaccardScore "alpha beta gamma delta zeta" eC6.original_prompt = 2 / 3 := by
    unfold jaccardScore
    norm_num [show interCount "alpha beta gamma delta zeta" eC6.original_prompt = 4 from by
        decide,
      show unionCount "alpha beta gamma delta zeta" eC6.original_prompt = 6 from by decide]
  have hm : getSemanticMatch envC6.entries "alpha beta gamma delta zeta" =
      some (adjustSemantic eC6 (2 / 3)) := by
    unfold getSemanticMatch semanticLoop
    rw [show envC6.entries = [eC6] from rfl]
    dsimp only
    rw [hj]
    norm_num [semanticLoop]
  have hconf : ¬ (adjustSemantic eC6 (2 / 3)).confidence_score > 3 / 5 := by
    norm_num [adjustSemantic, eC6]
  have hsem : semanticStage envC6 "alpha beta gamma delta zeta" = (none, none) := by
    unfold semanticStage
    rw [show envC6.semanticExc = none from rfl, hm]
    dsimp only
    rw [if_neg hconf]
  have hexec : executeWithFallbacks envC6 "alpha beta gamma delta zeta" {} =
      ⟨{ success := true,
         result := "I\x27m currently experiencing technical difficulties. Your request has been noted and will be processed as soon as possible.",
         fallback_level := .minimal_service, source := "template", confidence := 3 / 10 },
        ["primary: model down"], none⟩ := by
    unfold executeWithFallbacks
    rw [hsem]
    rfl
  refine ⟨hj, by norm_num, hm, hconf, ?_, ?_⟩
  · rw [hexec]
  · rw [hexec]
    decide

/-- C6 witness: with the default stored confidence 1.0 the amended
acceptance fires and returns the semantic-cache result. -/
theorem C6_witness :
    (executeWithFallbacks envC6b "alpha beta gamma delta zeta" {}).result =
      { success := true,
        result := "[Similar response] " ++ (adjustSemantic eC6b (2 / 3)).response,
        fallback_level := FallbackLevel.minimal_service, source := "cache_semantic",
        confidence := (adjustSemantic eC6b (2 / 3)).confidence_score } := by
  have hj : jaccardScore "alpha beta gamma delta zeta" eC6b.original_prompt = 2 / 3 := by
    unfold jaccardScore
    norm_num [show interCount "alpha beta gamma delta zeta" eC6b.original_prompt = 4 from by
        decide,
      show unionCount "alpha beta gamma delta zeta" eC6b.original_prompt = 6 from by decide]
  have hm : getSemanticMatch envC6b.entries "alpha beta gamma delta zeta" =
      some (adjustSemantic eC6b (2 / 3)) := by
    unfold getSemanticMatch semanticLoop
    rw [show envC6b.entries = [eC6b] from rfl]
    dsimp only
    rw [hj]
    norm_num [semanticLoop]
  exact (C6_semantic_acceptance envC6b "alpha beta gamma delta zeta" {} rfl rfl rfl rfl).2.2
    (adjustSemantic eC6b (2 / 3)) hm (by norm_num [adjustSemantic, eC6b])

/-- C8: listing pending handoff requests returns only rows with status
pending, at most limit of them, ordered by priority descending and, for
equal priorities, timestamp ascending; a request enqueued with an urgent
context gets priority 5 and is listed ahead of an earlier priority-1
request. -/
theorem C8_pending_ordering (queue : List HumanHandoffRequest) (limit : Nat) :
    (∀ r ∈ getPendingRequests queue limit, r.status = "pending") ∧
    (getPendingRequests queue limit).length ≤ limit ∧
    List.Sorted handoffOrder (getPendingRequests queue limit) ∧
    rUrg.priority = 5 ∧
    getPendingRequests [rLow, rUrg] 10 = [rUrg, rLow] := by
  refine ⟨?_, ?_, ?_, by decide, by decide⟩
  · intro r hr
    have h1 : r ∈ List.insertionSort handoffOrder
        (queue.filter (fun q => q.status == "pending")) :=
      List.take_subset _ _ hr
    have h2 : r ∈ queue.filter (fun q => q.status == "pending") :=
      (List.perm_insertionSort handoffOrder _).mem_iff.mp h1
    have h3 := List.of_mem_filter h2
    simpa using h3
  · exact List.length_take_le _ _
  · exact ((List.sorted_insertionSort handoffOrder _).sublist (List.take_sublist _ _))

/-- C8 witness: the urgent request is listed and the truncation bound
holds on the two-element queue. -/
theorem C8_witness :
    rUrg.status = "pending" ∧ (getPendingRequests [rLow, rUrg] 10).length ≤ 10 :=
  ⟨(C8_pending_ordering [rLow, rUrg] 10).1 rUrg (by decide),
    (C8_pending_ordering [rLow, rUrg] 10).2.1⟩

/-- C2: while the breaker for an operation id is open, a call before
next_attempt_time fails with the circuit-open error before the attempt
loop — the operation is never invoked (zero invocations) and the breaker
is unchanged; a call at or after next_attempt_time flips the breaker to
half_open with success_count reset to 0 and proceeds into the attempt
loop as a probe. -/
theorem C2_open_circuit_gate {α : Type} (config : RetryConfig) (operation : Nat → Except PyExc α)
    (operation_id : String) (breaker : CircuitBreakerState) (now t : ℚ)
    (henable : config.enable_circuit_breaker = true)
    (hstate : breaker.state = .opened)
    (hnext : breaker.next_attempt_time = some t) :
    (now < t →
      executeWithRetry config operation operation_id breaker now =
        (.error (.nonRetryableError ("Circuit breaker OPEN for " ++ operation_id)),
          breaker, 0)) ∧
    (t ≤ now →
      canExecute breaker now =
        (true, { breaker with state := .half_open, success_count := 0 }) ∧
      executeWithRetry config operation operation_id breaker now =
        retryLoop config operation now config.max_attempts 0
          { breaker with state := .half_open, success_count := 0 } none) := by
  constructor
  · intro hlt
    have hce : canExecute breaker now = (false, breaker) := by
      unfold canExecute
      rw [hstate]
      dsimp only
      rw [hnext]
      dsimp only
      rw [if_neg (not_le.mpr hlt)]
    unfold executeWithRetry
    rw [henable]
    try dsimp only
    rw [hce]
    rfl
  · intro hge
    have hce : canExecute breaker now =
        (true, { breaker with state := .half_open, success_count := 0 }) := by
      unfold canExecute
      rw [hstate]
      dsimp only
      rw [hnext]
      dsimp only
      rw [if_pos hge]
    refine ⟨hce, ?_⟩
    unfold executeWithRetry
    rw [henable]
    try dsimp only
    rw [hce]
    rfl

/-- C2 witness: with the default configuration and the breaker brOpen,
a call at time 5 is rejected without invocation and a call at time 15
transitions the breaker to half_open. -/
theorem C2_witness :
    executeWithRetry {} (fun _ => Except.ok (1 : Nat)) "op" brOpen 5 =
      (.error (.nonRetryableError ("Circuit breaker OPEN for " ++ "op")), brOpen, 0) ∧
    canExecute brOpen 15 = (true, { brOpen with state := .half_open, success_count := 0 }) :=
  ⟨(C2_open_circuit_gate {} (fun _ => Except.ok 1) "op" brOpen 5 10 rfl rfl rfl).1
      (by norm_num),
    ((C2_open_circuit_gate {} (fun _ => Except.ok 1) "op" brOpen 15 10 rfl rfl rfl).2
      (by norm_num)).1⟩

/-- The gate check either leaves the breaker unchanged or, from the open
state, moves it to half_open keeping its failure count. -/
theorem canExecute_snd (b : CircuitBreakerState) (now : ℚ) :
    (canExecute b now).2 = b ∨
    (b.state = .opened ∧
      (canExecute b now).2 = { b with state := .half_open, success_count := 0 }) := by
  unfold canExecute
  split
  · exact Or.inl rfl
  · rename_i hs
    split
    · rename_i t' heqt
      split
      · exact Or.inr ⟨hs, rfl⟩
      · exact Or.inl rfl
    · exact Or.inl rfl
  · exact Or.inl rfl

/-- A breaker reachable through the handler operations keeps its failure
count at or above the failure threshold whenever it is not closed. -/
theorem breaker_invariant (config : RetryConfig) (b : CircuitBreakerState)
    (h : BreakerReachable config b) :
    b.state ≠ CircuitState.closed → config.failure_threshold ≤ b.failure_count := by
  unfold BreakerReachable at h
  induction h with
  | refl =>
    intro hc
    exact absurd rfl hc
  | tail hsteps hstep ih =>
    rename_i b1 b2
    cases hstep with
    | gate now =>
      rcases canExecute_snd b1 now with hsnd | ⟨hst, hsnd⟩
      · rw [hsnd]
        exact ih
      · rw [hsnd]
        intro _
        have := ih (by rw [hst]; simp)
        simpa using this
    | success =>
      unfold recordSuccess
      split
      · rename_i hs
        dsimp only
        split
        · intro hc
          simp at hc
        · intro _
          have := ih (by rw [hs]; simp)
          simpa using this
      · rename_i hs
        intro hc
        simp [hs] at hc
      · rename_i hs
        exact ih
    | failure now =>
      unfold recordFailure
      try dsimp only
      split
      · rename_i hcond
        intro _
        simpa using hcond.2
      · rename_i hcond
        intro hc
        simp at hc
        have := ih hc
        simp
        omega


/-- C3: recording a failure increments failure_count and stamps
last_failure_time with now; the breaker ends open exactly when it was
already open or was closed or half-open with the incremented count
reaching the failure threshold, in which case next_attempt_time is set
to now + recovery_timeout; and since failure_count is never reset on
entering half_open, a single failure in any reachable half-open state
reopens the breaker with a fresh recovery window. -/
theorem C3_record_failure (config : RetryConfig) (b : CircuitBreakerState) (now : ℚ) :
    (recordFailure config b now).failure_count = b.failure_count + 1 ∧
    (recordFailure config b now).last_failure_time = some now ∧
    ((recordFailure config b now).state = .opened ↔
      (b.state = .opened ∨ ((b.state = .closed ∨ b.state = .half_open) ∧
        config.failure_threshold ≤ b.failure_count + 1))) ∧
    ((b.state = .closed ∨ b.state = .half_open) →
      config.failure_threshold ≤ b.failure_count + 1 →
      (recordFailure config b now).state = .opened ∧
      (recordFailure config b now).next_attempt_time =
        some (now + config.recovery_timeout)) ∧
    (BreakerReachable config b → b.state = .half_open →
      (recordFailure config b now).state = .opened ∧
      (recordFailure config b now).next_attempt_time =
        some (now + config.recovery_timeout)) := by
  by_cases hcond : (b.state = CircuitState.closed ∨ b.state = CircuitState.half_open) ∧
      config.failure_threshold ≤ b.failure_count + 1
  · have hrf : recordFailure config b now =
        { state := .opened, failure_count := b.failure_count + 1,
          success_count := b.success_count, last_failure_time := some now,
          next_attempt_time := some (now + config.recovery_timeout) } := by
      unfold recordFailure
      try dsimp only
      rw [if_pos hcond]
    rw [hrf]
    refine ⟨rfl, rfl, ?_, fun _ _ => ⟨rfl, rfl⟩, fun _ _ => ⟨rfl, rfl⟩⟩
    exact ⟨fun _ => Or.inr hcond, fun _ => rfl⟩
  · have hrf : recordFailure config b now =
        { state := b.state, failure_count := b.failure_count + 1,
          success_count := b.success_count, last_failure_time := some now,
          next_attempt_time := b.next_attempt_time } := by
      unfold recordFailure
      try dsimp only
      rw [if_neg hcond]
    rw [hrf]
    refine ⟨rfl, rfl, ?_, ?_, ?_⟩
    · constructor
      · intro h
        exact Or.inl h
      · rintro (h | h)
        · exact h
        · exact absurd h hcond
    · intro h1 h2
      exact absurd ⟨h1, h2⟩ hcond
    · intro hr hh
      have hinv := breaker_invariant config b hr (by rw [hh]; simp)
      exact absurd ⟨Or.inr hh, by omega⟩ hcond

/-- Concrete shape of the breaker after one failure under cfgC3. -/
theorem bOpen1_eq : bOpen1 =
    { state := .opened, failure_count := 1, success_count := 0,
      last_failure_time := some 0, next_attempt_time := some ((0 : ℚ) + 1) } := by
  show recordFailure cfgC3 initialBreaker 0 = _
  unfold recordFailure
  try dsimp only
  rw [if_pos (by decide)]
  rfl

/-- Concrete shape of the half-open breaker of the C3 witness. -/
theorem bHalfC3_eq : bHalfC3 =
    { state := .half_open, failure_count := 1, success_count := 0,
      last_failure_time := some 0, next_attempt_time := some ((0 : ℚ) + 1) } := by
  show (canExecute bOpen1 5).2 = _
  rw [bOpen1_eq]
  unfold canExecute
  dsimp only
  rw [if_pos (by norm_num : (5 : ℚ) ≥ 0 + 1)]

/-- The C3 witness breaker is half-open. -/
theorem bHalfC3_half : bHalfC3.state = CircuitState.half_open := by
  rw [bHalfC3_eq]

/-- The half-open breaker of the C3 witness is reachable through the
handler operations: one failure, then a gate check after the window. -/
theorem reachC3 : BreakerReachable cfgC3 bHalfC3 :=
  Relation.ReflTransGen.tail
    (Relation.ReflTransGen.tail Relation.ReflTransGen.refl
      (BreakerStep.failure initialBreaker 0))
    (BreakerStep.gate bOpen1 5)

/-- C3 witness: the reachable half-open breaker reopens on a single
failure with a fresh window, and a failure on the fresh breaker
increments the count and stamps the time. -/
theorem C3_witness :
    (recordFailure cfgC3 bHalfC3 7).state = CircuitState.opened ∧
    (recordFailure cfgC3 bHalfC3 7).next_attempt_time = some (7 + cfgC3.recovery_timeout) ∧
    (recordFailure cfgC3 initialBreaker 0).failure_count = initialBreaker.failure_count + 1 ∧
    (recordFailure cfgC3 initialBreaker 0).last_failure_time = some 0 :=
  ⟨((C3_record_failure cfgC3 bHalfC3 7).2.2.2.2 reachC3 bHalfC3_half).1,
    ((C3_record_failure cfgC3 bHalfC3 7).2.2.2.2 reachC3 bHalfC3_half).2,
    (C3_record_failure cfgC3 initialBreaker 0).1,
    (C3_record_failure cfgC3 initialBreaker 0).2.1⟩


/-- C7: a success while closed resets failure_count to 0; a success
while half-open increments success_count, transitioning to closed with
failure_count zeroed exactly once the incremented count reaches the
success threshold, and leaving the breaker half-open with its failure
count intact below the threshold — so fewer than success_threshold
consecutive successes leave it half-open. -/
theorem C7_record_success (config : RetryConfig) (b : CircuitBreakerState) :
    (b.state = .closed → recordSuccess config b = { b with failure_count := 0 }) ∧
    (b.state = .half_open →
      (recordSuccess config b).success_count = b.success_count + 1 ∧
      (config.success_threshold ≤ b.success_count + 1 →
        (recordSuccess config b).state = .closed ∧
        (recordSuccess config b).failure_count = 0) ∧
      (b.success_count + 1 < config.success_threshold →
        (recordSuccess config b).state = .half_open ∧
        (recordSuccess config b).failure_count = b.failure_count)) ∧
    (∀ k, b.state = .half_open → b.success_count + k < config.success_threshold →
      ((recordSuccess config)^[k] b).state = .half_open ∧
      ((recordSuccess config)^[k] b).success_count = b.success_count + k) := by
  refine ⟨?_, ?_, ?_⟩
  · intro h
    unfold recordSuccess
    rw [h]
  · intro h
    unfold recordSuccess
    rw [h]
    dsimp only
    by_cases ht : config.success_threshold ≤ b.success_count + 1
    · rw [if_pos ht]
      exact ⟨rfl, fun _ => ⟨rfl, rfl⟩, fun hlt => absurd ht (not_le.mpr hlt)⟩
    · rw [if_neg ht]
      exact ⟨rfl, fun h2 => absurd h2 ht, fun _ => ⟨rfl, rfl⟩⟩
  · intro k
    induction k generalizing b with
    | zero =>
      intro hs _
      simpa using hs
    | succ k ihk =>
      intro hs hlt
      rw [Function.iterate_succ_apply]
      have h1 : (recordSuccess config b).state = .half_open ∧
          (recordSuccess config b).success_count = b.success_count + 1 := by
        unfold recordSuccess
        rw [hs]
        dsimp only
        rw [if_neg (by omega)]
        exact ⟨rfl, rfl⟩
      have h2 := ihk (recordSuccess config b) h1.1 (by rw [h1.2]; omega)
      refine ⟨h2.1, ?_⟩
      rw [h2.2, h1.2]
      omega

/-- C7 witness: with the default threshold of 2, one success on a
half-open breaker keeps it half-open and a second closes it and zeroes
the failure count; a success on a closed breaker zeroes the count. -/
theorem C7_witness :
    recordSuccess {} initialBreaker = { initialBreaker with failure_count := 0 } ∧
    (recordSuccess {} bHalfC7).success_count = bHalfC7.success_count + 1 ∧
    ((recordSuccess {})^[1] bHalfC7).state = CircuitState.half_open ∧
    ((recordSuccess {})^[2] bHalfC7).state = CircuitState.closed ∧
    ((recordSuccess {})^[2] bHalfC7).failure_count = 0 := by
  refine ⟨(C7_record_success {} initialBreaker).1 rfl,
    ((C7_record_success {} bHalfC7).2.1 rfl).1,
    ((C7_record_success {} bHalfC7).2.2 1 rfl (by decide)).1,
    ?_, ?_⟩
  · have h1 := (C7_record_success {} bHalfC7).2.2 1 rfl (by decide)
    have h2 := ((C7_record_success {} ((recordSuccess {})^[1] bHalfC7)).2.1 h1.1)
    have hth : ({} : RetryConfig).success_threshold ≤
        ((recordSuccess {})^[1] bHalfC7).success_count + 1 := by
      rw [h1.2]
      decide
    have := (h2.2.1 hth).1
    rw [show ((recordSuccess {})^[2] bHalfC7) =
      recordSuccess {} ((recordSuccess {})^[1] bHalfC7) from rfl]
    exact this
  · have h1 := (C7_record_success {} bHalfC7).2.2 1 rfl (by decide)
    have h2 := ((C7_record_success {} ((recordSuccess {})^[1] bHalfC7)).2.1 h1.1)
    have hth : ({} : RetryConfig).success_threshold ≤
        ((recordSuccess {})^[1] bHalfC7).success_count + 1 := by
      rw [h1.2]
      decide
    have := (h2.2.1 hth).2
    rw [show ((recordSuccess {})^[2] bHalfC7) =
      recordSuccess {} ((recordSuccess {})^[1] bHalfC7) from rfl]
    exact this

/-- C4 counterexample: a ValueError whose message mentions parse is
retried under the default configuration, because the message-based retry
checks run before the type denylist; and a RetryableError carrying a
retry_after of 0 does not override the computed backoff delay, because
Python truthiness discards a zero hint. -/
theorem C4_counterexample :
    shouldRetry (.otherExc "ValueError" "failed to parse input") 1 {} = true ∧
    calculateDelay 1 { jitter := false } (.retryableError "slow" (some 0)) 0 = 1 ∧
    (1 : ℚ) ≠ 0 :=
  ⟨by decide, by norm_num [calculateDelay, PyExc.retryAfterHint] <;> decide, by norm_num⟩

/-- C4 (amended): a denylist exception (ValueError, TypeError,
AttributeError) is never retried provided no message-based retry
condition fires first (their type names match none of the name-based
checks, so only the parse/json/format and empty message checks can
precede the denylist); NonRetryableError is never retried;
RetryableError is always retried and its retry_after hint, when present
and non-zero, overrides the computed backoff delay; and an exception of
any other type always ends up retryable. -/
theorem C4_retry_classification (config : RetryConfig) (attempt : Nat) :
    (∀ ty msg, (ty = "ValueError" ∨ ty = "TypeError" ∨ ty = "AttributeError") →
      ((hasSub (pyLower msg) "parse".toList || hasSub (pyLower msg) "json".toList
        || hasSub (pyLower msg) "format".toList) && config.retry_on_parse_error) = false →
      (hasSub (pyLower msg) "empty".toList && config.retry_on_empty_response) = false →
      shouldRetry (.otherExc ty msg) attempt config = false) ∧
    (∀ msg, shouldRetry (.nonRetryableError msg) attempt config = false) ∧
    (∀ msg ra, shouldRetry (.retryableError msg ra) attempt config = true) ∧
    (∀ msg q r, q ≠ 0 →
      calculateDelay attempt config (.retryableError msg (some q)) r = q) ∧
    (∀ ty msg, ¬ (ty = "ValueError" ∨ ty = "TypeError" ∨ ty = "AttributeError") →
      shouldRetry (.otherExc ty msg) attempt config = true) := by
  refine ⟨?_, fun msg => rfl, fun msg ra => rfl, ?_, ?_⟩
  · intro ty msg hty hp he
    rcases hty with rfl | rfl | rfl
    · unfold shouldRetry
      dsimp only
      rw [show hasSub (pyLower "ValueError") "timeout".toList = false from by decide,
        show hasSub (pyLower "ValueError") "connection".toList = false from by decide,
        show hasSub (pyLower "ValueError") "network".toList = false from by decide,
        hp, he]
      simp
      try decide
    · unfold shouldRetry
      dsimp only
      rw [show hasSub (pyLower "TypeError") "timeout".toList = false from by decide,
        show hasSub (pyLower "TypeError") "connection".toList = false from by decide,
        show hasSub (pyLower "TypeError") "network".toList = false from by decide,
        hp, he]
      simp
      try decide
    · unfold shouldRetry
      dsimp only
      rw [show hasSub (pyLower "AttributeError") "timeout".toList = false from by decide,
        show hasSub (pyLower "AttributeError") "connection".toList = false from by decide,
        show hasSub (pyLower "AttributeError") "network".toList = false from by decide,
        hp, he]
      simp
      try decide
  · intro msg q r hq
    unfold calculateDelay
    rw [show (PyExc.retryableError msg (some q)).retryAfterHint = some q from by
      unfold PyExc.retryAfterHint
      dsimp only
      rw [if_neg hq]]
  · intro ty msg hty
    unfold shouldRetry
    dsimp only
    repeat' split
    all_goals first
      | rfl
      | (rename_i hcond; exfalso; simp at hcond; exact hty (by tauto))

/-- C4 witness: concrete classifications under the default
configuration, including a denylist exception with a neutral message and
a non-zero retry_after override. -/
theorem C4_witness :
    shouldRetry (.otherExc "ValueError" "bad value") 1 {} = false ∧
    shouldRetry (.nonRetryableError "nope") 1 {} = false ∧
    shouldRetry (.retryableError "slow" none) 1 {} = true ∧
    calculateDelay 1 {} (.retryableError "slow" (some 7)) 0 = 7 ∧
    shouldRetry (.otherExc "RuntimeError" "boom") 1 {} = true :=
  ⟨(C4_retry_classification {} 1).1 "ValueError" "bad value" (Or.inl rfl) (by decide) (by decide),
    (C4_retry_classification {} 1).2.1 "nope",
    (C4_retry_classification {} 1).2.2.1 "slow" none,
    (C4_retry_classification {} 1).2.2.2.1 "slow" 7 0 (by norm_num),
    (C4_retry_classification {} 1).2.2.2.2 "RuntimeError" "boom" (by decide)⟩

/-- With nonnegative delay parameters the clamped backoff delay is
nonnegative. -/
theorem clampedDelay_nonneg (n : Nat) (config : RetryConfig)
    (hbase : 0 ≤ config.base_delay) (hmax : 0 ≤ config.max_delay)
    (hmult : 0 ≤ config.backoff_multiplier) : 0 ≤ clampedDelay n config := by
  unfold clampedDelay
  split
  · exact le_refl 0
  · refine le_min ?_ hmax
    split
    · exact hbase
    · split
      · exact mul_nonneg hbase (Nat.cast_nonneg n)
      · split
        · exact mul_nonneg hbase (pow_nonneg hmult _)
        · exact hbase

/-- C5: with jitter disabled the delay equals 0 for immediate,
base_delay for fixed, base_delay times n for linear, and base_delay
times multiplier to the n minus 1 for exponential, each clamped to at
most max_delay; with base 1 and multiplier 2 the delays of attempts 1-4
are 1, 2, 4, 8 seconds; with jitter enabled the returned delay stays
within plus or minus ten percent of the clamped value and is never
negative. Stated for exceptions without a truthy retry_after hint and
for nonnegative delay parameters. -/
theorem C5_backoff_policy (config : RetryConfig) (e : PyExc) (n : Nat) (r : ℚ)
    (hhint : e.retryAfterHint = none)
    (hbase : 0 ≤ config.base_delay) (hmax : 0 ≤ config.max_delay)
    (hmult : 0 ≤ config.backoff_multiplier) :
    (config.jitter = false →
      (config.strategy = .immediate → calculateDelay n config e r = min 0 config.max_delay) ∧
      (config.strategy = .fixed_delay →
        calculateDelay n config e r = min config.base_delay config.max_delay) ∧
      (config.strategy = .linear_backoff →
        calculateDelay n config e r = min (config.base_delay * n) config.max_delay) ∧
      (config.strategy = .exponential_backoff →
        calculateDelay n config e r =
          min (config.base_delay * config.backoff_multiplier ^ (n - 1)) config.max_delay)) ∧
    (calculateDelay 1 { jitter := false } e r = 1 ∧
      calculateDelay 2 { jitter := false } e r = 2 ∧
      calculateDelay 3 { jitter := false } e r = 4 ∧
      calculateDelay 4 { jitter := false } e r = 8) ∧
    (config.jitter = true → 0 ≤ r → r ≤ 1 →
      (|calculateDelay n config e r - clampedDelay n config| ≤
          clampedDelay n config * (1 / 10) ∧
        0 ≤ calculateDelay n config e r)) := by
  refine ⟨?_, ⟨?_, ?_, ?_, ?_⟩, ?_⟩
  · intro hj
    refine ⟨?_, ?_, ?_, ?_⟩ <;> intro hs <;>
      (unfold calculateDelay; rw [hhint]; try dsimp only; rw [hs])
    · rw [if_pos rfl]
      exact (min_eq_left hmax).symm
    · rw [if_neg (by decide), hj]
      try dsimp only
      rw [if_pos rfl, if_neg (by decide)]
    · rw [if_neg (by decide), hj]
      try dsimp only
      rw [if_neg (by decide), if_pos rfl, if_neg (by decide)]
    · rw [if_neg (by decide), hj]
      try dsimp only
      rw [if_neg (by decide), if_neg (by decide), if_pos rfl, if_neg (by decide)]
  · unfold calculateDelay
    rw [hhint]
    try dsimp only
    norm_num
    all_goals decide
  · unfold calculateDelay
    rw [hhint]
    try dsimp only
    norm_num
    all_goals decide
  · unfold calculateDelay
    rw [hhint]
    try dsimp only
    norm_num
    all_goals decide
  · unfold calculateDelay
    rw [hhint]
    try dsimp only
    norm_num
    all_goals decide
  · intro hj hr0 hr1
    have hD0 : 0 ≤ clampedDelay n config := clampedDelay_nonneg n config hbase hmax hmult
    by_cases him : config.strategy = .immediate
    · have hc : clampedDelay n config = 0 := by
        unfold clampedDelay
        rw [if_pos him]
      have hcalc : calculateDelay n config e r = 0 := by
        unfold calculateDelay
        rw [hhint]
        try dsimp only
        rw [if_pos him]
      rw [hcalc, hc]
      norm_num
    · have hcalc : calculateDelay n config e r =
          max 0 (clampedDelay n config +
            clampedDelay n config * (1 / 10) * (r * 2 - 1)) := by
        unfold calculateDelay clampedDelay
        rw [hhint]
        try dsimp only
        rw [if_neg him, if_neg him, hj]
        try dsimp only
        rw [if_pos rfl]
      rw [hcalc]
      have hge : 0 ≤ clampedDelay n config +
          clampedDelay n config * (1 / 10) * (r * 2 - 1) := by
        nlinarith [hD0, hr0, hr1]
      rw [max_eq_right hge]
      constructor
      · rw [abs_le]
        constructor <;> nlinarith [hD0, hr0, hr1]
      · exact hge

/-- C5 witness: concrete delays under the default exponential
configuration without jitter, the exponential clamping formula at
attempt 2, and the jitter bounds at the default configuration. -/
theorem C5_witness :
    calculateDelay 1 { jitter := false } (PyExc.otherExc "TimeoutError" "t") (1 / 2) = 1 ∧
    calculateDelay 4 { jitter := false } (PyExc.otherExc "TimeoutError" "t") (1 / 2) = 8 ∧
    calculateDelay 2 { jitter := false } (PyExc.otherExc "TimeoutError" "t") (1 / 2) =
      min (({ jitter := false } : RetryConfig).base_delay *
        ({ jitter := false } : RetryConfig).backoff_multiplier ^ (2 - 1))
        ({ jitter := false } : RetryConfig).max_delay ∧
    (|calculateDelay 1 {} (PyExc.otherExc "TimeoutError" "t") (1 / 2) -
        clampedDelay 1 {}| ≤ clampedDelay 1 {} * (1 / 10) ∧
      0 ≤ calculateDelay 1 {} (PyExc.otherExc "TimeoutError" "t") (1 / 2)) :=
  ⟨(C5_backoff_policy {} (PyExc.otherExc "TimeoutError" "t") 1 (1 / 2) rfl
      (by norm_num) (by norm_num) (by norm_num)).2.1.1,
    (C5_backoff_policy {} (PyExc.otherExc "TimeoutError" "t") 1 (1 / 2) rfl
      (by norm_num) (by norm_num) (by norm_num)).2.1.2.2.2,
    ((C5_backoff_policy { jitter := false } (PyExc.otherExc "TimeoutError" "t") 2 (1 / 2) rfl
      (by norm_num) (by norm_num) (by norm_num)).1 rfl).2.2.2 rfl,
    (C5_backoff_policy {} (PyExc.otherExc "TimeoutError" "t") 1 (1 / 2) rfl
      (by norm_num) (by norm_num) (by norm_num)).2.2 rfl (by norm_num) (by norm_num)⟩
